import Mathlib

/-!
Shallow embedding of the alerting and backup-comparison core of the
slack-toolbox repository (src/lib/alerts.py and
src/scripts/utils/compare_backups.py), together with proofs of the
specification claims about it.

Modelling conventions:
* Python dict fields read with `d.get(key)` are `Option` values; a missing
  key is `none`.  Python truthiness of such a field is `truthy`.
* Timestamps are seconds since the epoch as `Int` (the code manipulates
  `datetime` values obtained from Unix timestamps; differences and
  comparisons of such values coincide with integer arithmetic on seconds).
* Strings produced only for display (formatted dates, fixed-decimal
  percentages inside messages) are represented by the underlying numeric
  value or by plain `toString` rendering; no claim depends on their text.
* Floating-point arithmetic on percentages and gigabyte totals is modelled
  by exact rational arithmetic (`ℚ`); the quantities involved
  (counts ≤ list lengths, byte counts) are far inside the range where
  Python float arithmetic on them used by the comparisons is exact for the
  boundary cases the claims mention.
-/

namespace Slack

/-- Truthiness of an optional boolean field read with `dict.get`:
a missing key (`none`) and an explicit `False` are falsy; `True` is truthy. -/
def truthy : Option Bool → Bool
  | some b => b
  | none => false

/-- Nested `profile` object of a user record; fields read with `.get`. -/
structure Profile where
  real_name : Option String
  title : Option String
  email : Option String
deriving DecidableEq

/-- A user record as consumed by the checks. `id` is required (the code
indexes with `u['id']`); every flag is read with `.get` and hence optional.
`updated` is read as `user.get('updated', 0)`, so a missing value is `0`. -/
structure UserRecord where
  id : String
  name : Option String
  profile : Profile
  deleted : Option Bool
  is_bot : Option Bool
  is_admin : Option Bool
  is_owner : Option Bool
  is_restricted : Option Bool
  is_ultra_restricted : Option Bool
  updated : Int
deriving DecidableEq

/-- The record a Python `dict.get(user_id, {})` produces for an absent user:
every optional field is missing. (Its `id` is never read by the code.) -/
def emptyUser : UserRecord :=
  ⟨"", none, ⟨none, none, none⟩, none, none, none, none, none, none, 0⟩

/-- A channel record. `topic_value` and `purpose_value` model the nested
`c.get('topic', {}).get('value')` reads. `num_members` is read as
`c.get('num_members', 0)`. -/
structure ChannelRecord where
  id : String
  name : Option String
  is_archived : Option Bool
  is_ext_shared : Option Bool
  topic_value : Option String
  purpose_value : Option String
  num_members : Int
deriving DecidableEq

/-- A file record; only `size` (read as `f.get('size', 0)`) is consumed. -/
structure FileRecord where
  size : Int
deriving DecidableEq

/-- The fully populated threshold configuration built by
`AlertDetector.__init__` (each value is the caller's override or the
hard-coded default). Percentage and gigabyte limits are rationals,
count and day limits are naturals, mirroring the defaults' types. -/
structure Thresholds where
  inactive_user_days : Nat
  inactive_user_percentage : ℚ
  storage_warning_gb : ℚ
  storage_critical_gb : ℚ
  deactivation_spike_count : Nat
  admin_change_spike : Nat
  channel_archive_spike : Nat
  guest_account_percentage : ℚ
  external_sharing_count : Nat
deriving DecidableEq

/-- The hard-coded defaults of `AlertDetector.__init__`. -/
def defaultThresholds : Thresholds :=
  ⟨90, 30, 80, 95, 5, 3, 10, 20, 50⟩

def secondsPerDay : Int := 86400

/-- Entry of `details['users']` built by `check_inactive_users`.
`last_activity` holds the timestamp whose `%Y-%m-%d` rendering the code
stores. -/
structure InactiveEntry where
  id : String
  name : Option String
  real_name : Option String
  last_activity : Int
  days_inactive : Int
deriving DecidableEq

/-- Entry of `details['users']` built by `check_recent_deactivations`;
`date` holds the timestamp whose `%Y-%m-%d` rendering the code stores. -/
structure DeactEntry where
  id : String
  name : Option String
  real_name : Option String
  date : Int
deriving DecidableEq

/-- One permission-change record built by `check_admin_changes`. -/
structure AdminChange where
  user_id : String
  name : Option String
  change : String
  role : String
deriving DecidableEq

/-- A truncated channel sample (`{'id': ..., 'name': ...}`). -/
structure ChannelSample where
  id : String
  name : Option String
deriving DecidableEq

/-- The `details` dictionaries the detector builds, one shape per check.
Key names of the Python dicts appear as argument names. `percentage` and
`total_gb` hold the exact value; the code stores `round(x, 2)` of it. -/
inductive Details where
  | inactive (inactive_count total_users : Nat) (percentage : ℚ)
      (threshold_days : Nat) (users : List InactiveEntry)
  | deactivation (deactivation_count days : Nat) (users : List DeactEntry)
  | ownerCount (n : Nat)
  | adminChanges (change_count : Nat) (changes : List AdminChange)
  | storage (total_gb threshold : ℚ) (file_count : Nat)
  | guest (guest_count total_users : Nat) (percentage threshold : ℚ)
  | archived (archived_count : Nat) (channels : List ChannelSample)
  | externalShared (external_count threshold : Nat)
      (channels : List ChannelSample)
deriving DecidableEq

/-- An `Alert` value: type, severity, title, message, details and the
creation timestamp (`datetime.now()` at construction, passed in as `now`). -/
structure Alert where
  alert_type : String
  severity : String
  title : String
  message : String
  details : Details
  timestamp : Int
deriving DecidableEq

/-- A user passes the `deleted`/`is_bot` exclusion filter. -/
def activeNonBot (u : UserRecord) : Bool :=
  !truthy u.deleted && !truthy u.is_bot

/-- The `inactive_users` list built by `check_inactive_users`: non-deleted,
non-bot users with a truthy `updated` strictly before the threshold date. -/
def inactiveEntries (t : Thresholds) (now : Int) (users : List UserRecord) :
    List InactiveEntry :=
  users.filterMap (fun u =>
    if truthy u.deleted || truthy u.is_bot then none
    else if u.updated ≠ 0 ∧
        u.updated < now - (t.inactive_user_days : Int) * secondsPerDay then
      some ⟨u.id, u.name, u.profile.real_name, u.updated,
        Int.fdiv (now - u.updated) secondsPerDay⟩
    else none)

/-- The single alert `check_inactive_users` appends when `inactive_users`
is non-empty. -/
def inactiveAlert (t : Thresholds) (now : Int) (users : List UserRecord) :
    Alert :=
  let entries := inactiveEntries t now users
  let total_users := (users.filter activeNonBot).length
  let inactive_percentage : ℚ :=
    if 0 < total_users then (entries.length : ℚ) / (total_users : ℚ) * 100
    else 0
  { alert_type := "user_activity"
    severity :=
      if t.inactive_user_percentage < inactive_percentage then "critical"
      else "warning"
    title := "Inactive Users Detected"
    message := "Found " ++ toString entries.length ++ " users inactive for "
      ++ toString t.inactive_user_days ++ "+ days ("
      ++ toString inactive_percentage ++ "% of workspace)"
    details := Details.inactive entries.length total_users
      inactive_percentage t.inactive_user_days (entries.take 20)
    timestamp := now }

/-- `AlertDetector.check_inactive_users`. -/
def check_inactive_users (t : Thresholds) (now : Int)
    (users : List UserRecord) : List Alert :=
  if inactiveEntries t now users = [] then []
  else [inactiveAlert t now users]

/-- The `recent_deactivations` list built by `check_recent_deactivations`:
deleted users with a truthy `updated` at or after the cutoff date. -/
def recentDeactEntries (now : Int) (days : Nat) (users : List UserRecord) :
    List DeactEntry :=
  users.filterMap (fun u =>
    if !truthy u.deleted then none
    else if u.updated ≠ 0 ∧
        now - (days : Int) * secondsPerDay ≤ u.updated then
      some ⟨u.id, u.name, u.profile.real_name, u.updated⟩
    else none)

/-- `AlertDetector.check_recent_deactivations` (the `days` parameter
defaults to 7 at the call sites). -/
def check_recent_deactivations (t : Thresholds) (now : Int)
    (users : List UserRecord) (days : Nat) : List Alert :=
  let recent := recentDeactEntries now days users
  if t.deactivation_spike_count ≤ recent.length then
    [{ alert_type := "user_deactivation"
       severity := "critical"
       title := "Unusual Deactivation Spike"
       message := toString recent.length ++ " users deactivated in the last "
         ++ toString days ++ " days"
       details := Details.deactivation recent.length days recent
       timestamp := now }]
  else []

/-- The distinct keys of the Python dict `{key(x): x for x in l}` (a later
record with the same key overrides an earlier one; only the key set and the
lookup results are observable in the modelled code). -/
def keysBy {α : Type} (key : α → String) (l : List α) : List String :=
  (l.map key).dedup

/-- Lookup in the Python dict `{key(x): x for x in l}`: the last record of
the list carrying the key. -/
def getBy {α : Type} (key : α → String) (l : List α) (i : String) :
    Option α :=
  (l.filter (fun x => key x == i)).getLast?

def dictKeys (us : List UserRecord) : List String := keysBy (fun u => u.id) us

def userDictGet (us : List UserRecord) (i : String) : Option UserRecord :=
  getBy (fun u => u.id) us i

/-- Count of active (non-deleted) owners, as in `check_admin_changes`. -/
def owner_count (users : List UserRecord) : Nat :=
  (users.filter (fun u => truthy u.is_owner && !truthy u.deleted)).length

/-- The `admin_changes` list of `check_admin_changes`: for every user id of
either snapshot, one record per flipped `is_admin` / `is_owner` value.
The flags are compared as raw optional values (Python `!=` between
`dict.get` results), so a missing flag differs from an explicit `False`.
The Python iteration order over the id set is unspecified; a fixed
deduplicated order is used here (no claim depends on the order). -/
def adminChangesOf (users prev : List UserRecord) : List AdminChange :=
  ((dictKeys prev ++ dictKeys users).dedup).flatMap (fun i =>
    let pu := (userDictGet prev i).getD emptyUser
    let cu := (userDictGet users i).getD emptyUser
    let nm := cu.name.orElse (fun _ => pu.name)
    (if pu.is_admin ≠ cu.is_admin then
      [⟨i, nm, if truthy cu.is_admin then "granted" else "revoked", "admin"⟩]
    else []) ++
    (if pu.is_owner ≠ cu.is_owner then
      [⟨i, nm, if truthy cu.is_owner then "granted" else "revoked", "owner"⟩]
    else []))

/-- `AlertDetector.check_admin_changes`. The previous list is optional;
Python tests it with `if previous_users:`, so an empty list behaves like an
absent one. -/
def check_admin_changes (t : Thresholds) (now : Int)
    (users : List UserRecord) (previous_users : Option (List UserRecord)) :
    List Alert :=
  let ownerAlerts : List Alert :=
    if owner_count users = 0 then
      [⟨"permissions", "critical", "No Workspace Owners",
        "No active workspace owners detected - this is a critical security issue",
        Details.ownerCount 0, now⟩]
    else if owner_count users = 1 then
      [⟨"permissions", "warning", "Single Workspace Owner",
        "Only one workspace owner - consider adding backup owners",
        Details.ownerCount 1, now⟩]
    else []
  let changeAlerts : List Alert :=
    match previous_users with
    | none => []
    | some prev =>
      if prev = [] then []
      else
        let cs := adminChangesOf users prev
        if t.admin_change_spike ≤ cs.length then
          [⟨"permissions", "warning", "Multiple Permission Changes",
            toString cs.length ++ " admin/owner permission changes detected",
            Details.adminChanges cs.length cs, now⟩]
        else []
  ownerAlerts ++ changeAlerts

/-- Total storage in gigabytes: `sum(f.get('size', 0)) / 1024 ** 3`. -/
def total_gb (files : List FileRecord) : ℚ :=
  (((files.map (fun f => f.size)).sum : Int) : ℚ) / (1024 ^ 3 : ℚ)

/-- `AlertDetector.check_storage`. -/
def check_storage (t : Thresholds) (now : Int) (files : List FileRecord) :
    List Alert :=
  let g := total_gb files
  if t.storage_critical_gb ≤ g then
    [⟨"storage", "critical", "Critical Storage Usage",
      "Workspace storage at " ++ toString g ++ " GB (critical threshold: "
        ++ toString t.storage_critical_gb ++ " GB)",
      Details.storage g t.storage_critical_gb files.length, now⟩]
  else if t.storage_warning_gb ≤ g then
    [⟨"storage", "warning", "High Storage Usage",
      "Workspace storage at " ++ toString g ++ " GB (warning threshold: "
        ++ toString t.storage_warning_gb ++ " GB)",
      Details.storage g t.storage_warning_gb files.length, now⟩]
  else []

/-- Keys of the Python dict of archived channels
`{c['id']: c for c in channels if c.get('is_archived')}`. -/
def archivedIds (cs : List ChannelRecord) : List String :=
  keysBy (fun c => c.id) (cs.filter (fun c => truthy c.is_archived))

/-- Lookup in that dict. -/
def archivedGet (cs : List ChannelRecord) (i : String) :
    Option ChannelRecord :=
  getBy (fun c => c.id) (cs.filter (fun c => truthy c.is_archived)) i

/-- The "newly archived" id set: archived in the current snapshot and not
archived (or absent) in the previous one, as a deduplicated list. -/
def newlyArchived (channels prev : List ChannelRecord) : List String :=
  (archivedIds channels).filter (fun i => !decide (i ∈ archivedIds prev))

def emptyChannel : ChannelRecord := ⟨"", none, none, none, none, none, 0⟩

/-- `AlertDetector.check_archived_channels` (its unused `days` parameter is
omitted). Python tests the previous list with `if previous_channels:`, so
an empty list behaves like an absent one. Sample order and truncation
model the Python `channels_list[:20]` over a set iteration. -/
def check_archived_channels (t : Thresholds) (now : Int)
    (channels : List ChannelRecord)
    (previous_channels : Option (List ChannelRecord)) : List Alert :=
  match previous_channels with
  | none => []
  | some prev =>
    if prev = [] then []
    else
      let newly := newlyArchived channels prev
      if t.channel_archive_spike ≤ newly.length then
        [⟨"channel_management", "warning", "Channel Archival Spike",
          toString newly.length ++ " channels archived recently",
          Details.archived newly.length
            ((newly.map (fun i =>
              let c := (archivedGet channels i).getD emptyChannel
              ChannelSample.mk c.id c.name)).take 20),
          now⟩]
      else []

/-- One changed field recorded by the comparator, as `{old, new}` (and a
signed `diff` for the numeric member count). -/
inductive FieldChange where
  | obool (field : String) (oldv newv : Option Bool)
  | ostr (field : String) (oldv newv : Option String)
  | icount (field : String) (oldv newv diff : Int)
deriving DecidableEq

/-- A `modified` entry of `compare_users`. -/
structure UserModified where
  id : String
  name : Option String
  real_name : Option String
  changes : List FieldChange
deriving DecidableEq

/-- A `modified` entry of `compare_channels`. -/
structure ChannelModified where
  id : String
  name : Option String
  changes : List FieldChange
deriving DecidableEq

/-- The `stats` block of a comparison report. -/
structure DiffStats where
  total_before : Nat
  total_after : Nat
  added_count : Nat
  removed_count : Nat
  modified_count : Nat
deriving DecidableEq

/-- Report of `BackupComparator.compare_users`. -/
structure UserDiff where
  added : List UserRecord
  removed : List UserRecord
  modified : List UserModified
  stats : DiffStats
deriving DecidableEq

/-- Report of `BackupComparator.compare_channels`. -/
structure ChannelDiff where
  added : List ChannelRecord
  removed : List ChannelRecord
  modified : List ChannelModified
  stats : DiffStats
deriving DecidableEq

/-- The tracked field comparison of `compare_users` over a common id. -/
def userChanges (u1 u2 : UserRecord) : List FieldChange :=
  (if u1.deleted ≠ u2.deleted then
    [FieldChange.obool "deleted" u1.deleted u2.deleted] else []) ++
  (if u1.is_admin ≠ u2.is_admin then
    [FieldChange.obool "is_admin" u1.is_admin u2.is_admin] else []) ++
  (if u1.is_owner ≠ u2.is_owner then
    [FieldChange.obool "is_owner" u1.is_owner u2.is_owner] else []) ++
  (if u1.profile.title ≠ u2.profile.title then
    [FieldChange.ostr "title" u1.profile.title u2.profile.title] else []) ++
  (if u1.profile.real_name ≠ u2.profile.real_name then
    [FieldChange.ostr "real_name" u1.profile.real_name u2.profile.real_name]
  else [])

/-- The tracked field comparison of `compare_channels` over a common id. -/
def channelChanges (c1 c2 : ChannelRecord) : List FieldChange :=
  (if c1.is_archived ≠ c2.is_archived then
    [FieldChange.obool "is_archived" c1.is_archived c2.is_archived]
  else []) ++
  (if c1.name ≠ c2.name then
    [FieldChange.ostr "name" c1.name c2.name] else []) ++
  (if c1.topic_value ≠ c2.topic_value then
    [FieldChange.ostr "topic" c1.topic_value c2.topic_value] else []) ++
  (if c1.purpose_value ≠ c2.purpose_value then
    [FieldChange.ostr "purpose" c1.purpose_value c2.purpose_value]
  else []) ++
  (if c1.num_members ≠ c2.num_members then
    [FieldChange.icount "num_members" c1.num_members c2.num_members
      (c2.num_members - c1.num_members)]
  else [])

/-- `BackupComparator.compare_users` over the two loaded member lists
(the JSON loading is external I/O). The Python set iterations over
`added`/`removed`/`common` are modelled by deduplicated filtered lists. -/
def compare_users (us1 us2 : List UserRecord) : UserDiff :=
  let ids1 := dictKeys us1
  let ids2 := dictKeys us2
  let added := ids2.filter (fun i => !decide (i ∈ ids1))
  let removed := ids1.filter (fun i => !decide (i ∈ ids2))
  let common := ids1.filter (fun i => decide (i ∈ ids2))
  let modified := common.filterMap (fun i =>
    let u1 := (userDictGet us1 i).getD emptyUser
    let u2 := (userDictGet us2 i).getD emptyUser
    let cs := userChanges u1 u2
    if cs = [] then none
    else some (UserModified.mk i u2.name u2.profile.real_name cs))
  { added := added.filterMap (userDictGet us2)
    removed := removed.filterMap (userDictGet us1)
    modified := modified
    stats := ⟨ids1.length, ids2.length, added.length, removed.length,
      modified.length⟩ }

def chanDictGet (cs : List ChannelRecord) (i : String) :
    Option ChannelRecord :=
  getBy (fun c => c.id) cs i

/-- `BackupComparator.compare_channels`, same shape as `compare_users`. -/
def compare_channels (cs1 cs2 : List ChannelRecord) : ChannelDiff :=
  let ids1 := keysBy (fun c => c.id) cs1
  let ids2 := keysBy (fun c => c.id) cs2
  let added := ids2.filter (fun i => !decide (i ∈ ids1))
  let removed := ids1.filter (fun i => !decide (i ∈ ids2))
  let common := ids1.filter (fun i => decide (i ∈ ids2))
  let modified := common.filterMap (fun i =>
    let c1 := (chanDictGet cs1 i).getD emptyChannel
    let c2 := (chanDictGet cs2 i).getD emptyChannel
    let cs := channelChanges c1 c2
    if cs = [] then none
    else some (ChannelModified.mk i c2.name cs))
  { added := added.filterMap (chanDictGet cs2)
    removed := removed.filterMap (chanDictGet cs1)
    modified := modified
    stats := ⟨ids1.length, ids2.length, added.length, removed.length,
      modified.length⟩ }

/-- `AlertManager.get_alerts`: optional severity and type filters with AND
semantics, preserving order. -/
def get_alerts (alerts : List Alert) (severity : Option String)
    (alert_type : Option String) : List Alert :=
  let f1 := match severity with
    | none => alerts
    | some s => alerts.filter (fun a => a.severity == s)
  match alert_type with
  | none => f1
  | some ty => f1.filter (fun a => a.alert_type == ty)

/-- One step of `AlertManager._count_by_type` (a `defaultdict(int)` bump;
insertion order of keys is preserved). -/
def bumpType : List (String × Nat) → String → List (String × Nat)
  | [], ty => [(ty, 1)]
  | (s, n) :: rest, ty =>
    if s == ty then (s, n + 1) :: rest else (s, n) :: bumpType rest ty

/-- `AlertManager._count_by_type`. -/
def count_by_type (alerts : List Alert) : List (String × Nat) :=
  (alerts.map (fun a => a.alert_type)).foldl bumpType []

/-- The summary dictionary of `AlertManager.get_summary`. -/
structure Summary where
  total : Nat
  critical : Nat
  warning : Nat
  info : Nat
  by_type : List (String × Nat)
deriving DecidableEq

/-- `AlertManager.get_summary`. -/
def get_summary (alerts : List Alert) : Summary :=
  ⟨alerts.length,
   (get_alerts alerts (some "critical") none).length,
   (get_alerts alerts (some "warning") none).length,
   (get_alerts alerts (some "info") none).length,
   count_by_type alerts⟩

/-- The serialized form of one alert inside the saved JSON document
(`Alert.to_dict`). The ISO-8601 timestamp string is an injective encoding
of the creation instant, modelled by the instant itself. -/
structure StoredAlert where
  alert_type : String
  severity : String
  title : String
  message : String
  details : Details
  timestamp : Int
deriving DecidableEq

/-- The JSON document written by `AlertManager.save`. -/
structure AlertFile where
  generated_at : Int
  summary : Summary
  alerts : List StoredAlert
deriving DecidableEq

/-- `Alert.to_dict`. -/
def Alert.to_dict (a : Alert) : StoredAlert :=
  ⟨a.alert_type, a.severity, a.title, a.message, a.details, a.timestamp⟩

/-- `AlertManager.save`: the document `{generated_at, summary, alerts}`. -/
def save (now : Int) (alerts : List Alert) : AlertFile :=
  ⟨now, get_summary alerts, alerts.map Alert.to_dict⟩

/-- `AlertManager.load`: rebuild each `Alert` from its dictionary and then
overwrite its construction timestamp with the deserialized one. -/
def load (f : AlertFile) : List Alert :=
  f.alerts.map (fun d =>
    ⟨d.alert_type, d.severity, d.title, d.message, d.details, d.timestamp⟩)

/-- C2: for every alert manager holding a non-empty list of alerts,
loading the file produced by saving reconstructs the same number of alerts,
in the same order, each with `alert_type`, `severity`, `title`, `message`,
`details` and `timestamp` (the original creation instant, not the restore
time) identical to the original. -/
theorem C2_save_load_round_trip (now : Int) (alerts : List Alert)
    (h : alerts ≠ []) :
    load (save now alerts) = alerts ∧
      (load (save now alerts)).length = alerts.length := by
  have hmap : load (save now alerts) = alerts := by
    simp only [load, save, Alert.to_dict, List.map_map, Function.comp_def]
    exact List.map_id'' (fun _ => rfl) alerts
  exact ⟨hmap, by rw [hmap]⟩

/-- Witness for C2 at a concrete one-alert manager. -/
theorem C2_witness :
    load (save 99 [⟨"storage", "critical", "T", "M",
        Details.storage 1 95 3, 42⟩]) =
      [⟨"storage", "critical", "T", "M", Details.storage 1 95 3, 42⟩] :=
  (C2_save_load_round_trip 99 _ (by simp)).1

/-- C3: with no previous snapshot, `check_admin_changes` emits exactly one
critical `permissions` alert when there are zero active owners (its details
carry only the owner count — no `users` key), exactly one warning alert
with exactly one active owner, and nothing from this sub-check with two or
more owners. -/
theorem C3_owner_count_boundaries (t : Thresholds) (now : Int)
    (users : List UserRecord) :
    check_admin_changes t now users none =
      (if owner_count users = 0 then
        [⟨"permissions", "critical", "No Workspace Owners",
          "No active workspace owners detected - this is a critical security issue",
          Details.ownerCount 0, now⟩]
      else if owner_count users = 1 then
        [⟨"permissions", "warning", "Single Workspace Owner",
          "Only one workspace owner - consider adding backup owners",
          Details.ownerCount 1, now⟩]
      else []) := by
  simp only [check_admin_changes]
  split <;> simp

/-- C4: `check_storage` emits exactly one critical alert when the gigabyte
total reaches `storage_critical_gb`, otherwise exactly one warning alert
when it reaches `storage_warning_gb`, otherwise nothing; the two alerts
are never both emitted, and the boundary total equal to
`storage_critical_gb` takes the critical branch. -/
theorem C4_storage_thresholds (t : Thresholds) (now : Int)
    (files : List FileRecord) :
    ((∃ a ∈ check_storage t now files, a.severity = "critical") ↔
      t.storage_critical_gb ≤ total_gb files) ∧
    ((∃ a ∈ check_storage t now files, a.severity = "warning") ↔
      (t.storage_warning_gb ≤ total_gb files ∧
        total_gb files < t.storage_critical_gb)) ∧
    (check_storage t now files = [] ↔
      (total_gb files < t.storage_warning_gb ∧
        total_gb files < t.storage_critical_gb)) ∧
    (check_storage t now files).length ≤ 1 ∧
    (∀ a ∈ check_storage t now files, a.alert_type = "storage") := by
  by_cases hc : t.storage_critical_gb ≤ total_gb files
  · simp [check_storage, hc, not_lt.mpr hc]
  · by_cases hw : t.storage_warning_gb ≤ total_gb files
    · simp [check_storage, hc, hw, not_le.mp hc]
    · simp [check_storage, hc, hw, not_le.mp hc, not_le.mp hw]

/-- Witness for C4: a byte total of exactly `storage_critical_gb`
gigabytes fires the critical branch under the default thresholds. -/
theorem C4_witness :
    ∃ a ∈ check_storage defaultThresholds 0 [⟨95 * 1024 ^ 3⟩],
      a.severity = "critical" :=
  (C4_storage_thresholds defaultThresholds 0 [⟨95 * 1024 ^ 3⟩]).1.mpr
    (by norm_num [total_gb, defaultThresholds])

lemma sum_bumpType (acc : List (String × Nat)) (ty : String) :
    ((bumpType acc ty).map Prod.snd).sum = (acc.map Prod.snd).sum + 1 := by
  induction acc with
  | nil => simp [bumpType]
  | cons p rest ih =>
    obtain ⟨s, n⟩ := p
    by_cases hs : s == ty
    · simp [bumpType, hs]
      omega
    · simp [bumpType, hs, ih]
      omega

lemma pos_bumpType (acc : List (String × Nat)) (ty : String)
    (h : ∀ p ∈ acc, 0 < p.2) : ∀ q ∈ bumpType acc ty, 0 < q.2 := by
  induction acc with
  | nil =>
    intro q hq
    simp [bumpType] at hq
    simp [hq]
  | cons p rest ih =>
    obtain ⟨s, n⟩ := p
    intro q hq
    by_cases hs : s == ty
    · simp [bumpType, hs] at hq
      rcases hq with hq | hq
      · simp [hq]
      · exact h q (by simp [hq])
    · simp [bumpType, hs] at hq
      rcases hq with hq | hq
      · exact h q (by simp [hq])
      · exact ih (fun p hp => h p (by simp [hp])) q hq

lemma sum_foldl_bumpType (tys : List String) (acc : List (String × Nat)) :
    ((tys.foldl bumpType acc).map Prod.snd).sum =
      (acc.map Prod.snd).sum + tys.length := by
  induction tys generalizing acc with
  | nil => simp
  | cons ty rest ih =>
    simp only [List.foldl_cons, ih, sum_bumpType, List.length_cons]
    omega

lemma pos_foldl_bumpType (tys : List String) (acc : List (String × Nat))
    (h : ∀ p ∈ acc, 0 < p.2) : ∀ q ∈ tys.foldl bumpType acc, 0 < q.2 := by
  induction tys generalizing acc with
  | nil => exact h
  | cons ty rest ih =>
    intro q hq
    exact ih (bumpType acc ty) (pos_bumpType acc ty h) q hq

lemma severity_partition (alerts : List Alert)
    (h : ∀ a ∈ alerts, a.severity = "critical" ∨ a.severity = "warning" ∨
      a.severity = "info") :
    (alerts.filter (fun a => a.severity == "critical")).length +
      (alerts.filter (fun a => a.severity == "warning")).length +
      (alerts.filter (fun a => a.severity == "info")).length =
      alerts.length := by
  induction alerts with
  | nil => simp
  | cons a rest ih =>
    have hrest := ih (fun b hb => h b (List.mem_cons_of_mem a hb))
    rcases h a (List.mem_cons_self a rest) with h1 | h1 | h1 <;>
      simp [List.filter_cons, h1] <;> omega

/-- C9: `get_summary` reports `total` equal to the number of stored alerts,
its `by_type` values sum to `total` with no zero entries, and the three
severity counters sum to `total` whenever every stored severity is one of
the three recognized values. -/
theorem C9_summary_invariants (alerts : List Alert) :
    (get_summary alerts).total = alerts.length ∧
    (((get_summary alerts).by_type).map Prod.snd).sum =
      (get_summary alerts).total ∧
    (∀ p ∈ (get_summary alerts).by_type, 0 < p.2) ∧
    ((∀ a ∈ alerts, a.severity = "critical" ∨ a.severity = "warning" ∨
        a.severity = "info") →
      (get_summary alerts).critical + (get_summary alerts).warning +
        (get_summary alerts).info = (get_summary alerts).total) := by
  refine ⟨rfl, ?_, ?_, ?_⟩
  · simp [get_summary, count_by_type, sum_foldl_bumpType]
  · intro p hp
    exact pos_foldl_bumpType _ [] (by simp) p hp
  · intro h
    simpa [get_summary, get_alerts] using severity_partition alerts h

/-- Witness for C9 at a concrete two-alert manager. -/
theorem C9_witness :
    (get_summary [⟨"storage", "critical", "T", "M", Details.ownerCount 0, 0⟩,
        ⟨"permissions", "warning", "S", "N", Details.ownerCount 1, 0⟩]).critical +
      (get_summary [⟨"storage", "critical", "T", "M", Details.ownerCount 0, 0⟩,
        ⟨"permissions", "warning", "S", "N", Details.ownerCount 1, 0⟩]).warning +
      (get_summary [⟨"storage", "critical", "T", "M", Details.ownerCount 0, 0⟩,
        ⟨"permissions", "warning", "S", "N", Details.ownerCount 1, 0⟩]).info =
      (get_summary [⟨"storage", "critical", "T", "M", Details.ownerCount 0, 0⟩,
        ⟨"permissions", "warning", "S", "N", Details.ownerCount 1, 0⟩]).total :=
  (C9_summary_invariants _).2.2.2 (by simp)

/-- The claim-side inactivity predicate: a non-deleted, non-bot user
carrying an `updated` timestamp (nonzero; the code reads
`user.get('updated', 0)` and skips a falsy value) strictly older than
`now` minus the threshold in days. -/
def isInactive (t : Thresholds) (now : Int) (u : UserRecord) : Prop :=
  truthy u.deleted = false ∧ truthy u.is_bot = false ∧ u.updated ≠ 0 ∧
    u.updated < now - (t.inactive_user_days : Int) * secondsPerDay

instance (t : Thresholds) (now : Int) (u : UserRecord) :
    Decidable (isInactive t now u) := by
  unfold isInactive
  infer_instance

lemma length_filterMap_eq_countP {α β : Type} (f : α → Option β)
    (p : α → Bool) (hfp : ∀ a, (f a).isSome = p a) (l : List α) :
    (l.filterMap f).length = l.countP p := by
  induction l with
  | nil => rfl
  | cons a rest ih =>
    have hpa := hfp a
    cases hfa : f a with
    | none =>
      rw [hfa] at hpa
      simp only [Option.isSome_none] at hpa
      simp [List.filterMap_cons, hfa, List.countP_cons, ← hpa, ih]
    | some b =>
      rw [hfa] at hpa
      simp only [Option.isSome_some] at hpa
      simp [List.filterMap_cons, hfa, List.countP_cons, ← hpa, ih]

lemma filterMap_ne_nil_iff {α β : Type} (f : α → Option β) (l : List α) :
    l.filterMap f ≠ [] ↔ ∃ a ∈ l, (f a).isSome := by
  rw [Ne, List.filterMap_eq_nil_iff]
  push_neg
  constructor
  · rintro ⟨a, ha, hfa⟩
    exact ⟨a, ha, by simp [Option.isSome_iff_ne_none, hfa]⟩
  · rintro ⟨a, ha, hfa⟩
    exact ⟨a, ha, by simpa [Option.isSome_iff_ne_none] using hfa⟩

lemma inactiveEntries_isSome (t : Thresholds) (now : Int) (u : UserRecord) :
    (if truthy u.deleted || truthy u.is_bot then (none : Option InactiveEntry)
     else if u.updated ≠ 0 ∧
         u.updated < now - (t.inactive_user_days : Int) * secondsPerDay then
       some (InactiveEntry.mk u.id u.name u.profile.real_name u.updated
         (Int.fdiv (now - u.updated) secondsPerDay))
     else none).isSome = decide (isInactive t now u) := by
  unfold isInactive
  rcases Bool.eq_false_or_eq_true (truthy u.deleted) with hd | hd <;>
    rcases Bool.eq_false_or_eq_true (truthy u.is_bot) with hb | hb <;>
    by_cases h2 : u.updated ≠ 0 ∧
      u.updated < now - (t.inactive_user_days : Int) * secondsPerDay <;>
    simp [hd, hb, h2]

lemma inactiveEntries_length (t : Thresholds) (now : Int)
    (users : List UserRecord) :
    (inactiveEntries t now users).length =
      users.countP (fun u => decide (isInactive t now u)) :=
  length_filterMap_eq_countP _ _ (fun u => inactiveEntries_isSome t now u)
    users

lemma inactiveEntries_ne_nil (t : Thresholds) (now : Int)
    (users : List UserRecord) :
    inactiveEntries t now users ≠ [] ↔ ∃ u ∈ users, isInactive t now u := by
  rw [inactiveEntries, filterMap_ne_nil_iff]
  constructor
  · rintro ⟨u, hu, hs⟩
    exact ⟨u, hu, of_decide_eq_true
      ((inactiveEntries_isSome t now u).symm.trans hs)⟩
  · rintro ⟨u, hu, hiu⟩
    exact ⟨u, hu, (inactiveEntries_isSome t now u).trans (decide_eq_true hiu)⟩

/-- C1: `check_inactive_users` returns a non-empty alert list iff some
non-deleted, non-bot user has an `updated` timestamp strictly older than
`now` minus `inactive_user_threshold` days; when non-empty, the list is a
single `user_activity` alert whose details report the inactive count, the
total of active non-bot users, the percentage (0 if that total is 0), and
at most 20 sample users. -/
theorem C1_inactive_users (t : Thresholds) (now : Int)
    (users : List UserRecord) :
    (check_inactive_users t now users ≠ [] ↔
      ∃ u ∈ users, isInactive t now u) ∧
    (∀ a ∈ check_inactive_users t now users,
      check_inactive_users t now users = [a] ∧
      a.alert_type = "user_activity" ∧
      ∃ samp : List InactiveEntry,
        a.details = Details.inactive
          (users.countP (fun u => decide (isInactive t now u)))
          (users.countP activeNonBot)
          (if users.countP activeNonBot = 0 then 0
           else (users.countP (fun u => decide (isInactive t now u)) : ℚ) /
             (users.countP activeNonBot : ℚ) * 100)
          t.inactive_user_days samp ∧
        samp.length ≤ 20) := by
  have hchar := inactiveEntries_ne_nil t now users
  constructor
  · rw [check_inactive_users]
    split
    · rename_i hnil
      constructor
      · intro hc
        exact absurd rfl hc
      · intro hex
        exact absurd hnil (hchar.mpr hex)
    · rename_i hnil
      constructor
      · intro _
        exact hchar.mp hnil
      · intro _
        simp
  · intro a ha
    rw [check_inactive_users] at ha ⊢
    split at ha
    · exact absurd ha (List.not_mem_nil a)
    · rename_i hnil
      rw [List.mem_singleton] at ha
      subst ha
      have hdet : (inactiveAlert t now users).details =
          Details.inactive (inactiveEntries t now users).length
            ((users.filter activeNonBot).length)
            (if 0 < (users.filter activeNonBot).length then
              ((inactiveEntries t now users).length : ℚ) /
                (((users.filter activeNonBot).length : Nat) : ℚ) * 100
             else 0)
            t.inactive_user_days ((inactiveEntries t now users).take 20) :=
        rfl
      have hlen := inactiveEntries_length t now users
      have htot : (users.filter activeNonBot).length =
          users.countP activeNonBot :=
        (List.countP_eq_length_filter _ _).symm
      refine ⟨by simp [hnil], rfl,
        (inactiveEntries t now users).take 20, ?_,
        List.length_take_le 20 _⟩
      rw [hdet, hlen, htot]
      rcases Nat.eq_zero_or_pos (users.countP activeNonBot) with h0 | h0
      · simp [h0]
      · simp [h0, Nat.pos_iff_ne_zero.mp h0]

/-- Witness for C1: a single stale user makes the check fire. -/
theorem C1_witness :
    check_inactive_users defaultThresholds 1000000000
      [⟨"U1", some "alice", ⟨some "Alice", none, none⟩, none, none, none,
        none, none, none, 1⟩] ≠ [] :=
  (C1_inactive_users defaultThresholds 1000000000 _).1.mpr
    ⟨_, List.mem_singleton_self _, by decide⟩

/-- The claim-side recent-deactivation predicate: a deleted user whose
`updated` time lies at or after `now` minus the trailing window. -/
def isRecentDeact (now : Int) (days : Nat) (u : UserRecord) : Prop :=
  truthy u.deleted = true ∧ now - (days : Int) * secondsPerDay ≤ u.updated

instance (now : Int) (days : Nat) (u : UserRecord) :
    Decidable (isRecentDeact now days u) := by
  unfold isRecentDeact
  infer_instance

lemma recentDeact_isSome (now : Int) (days : Nat) (u : UserRecord)
    (h : 0 < now - (days : Int) * secondsPerDay) :
    (if !truthy u.deleted then (none : Option DeactEntry)
     else if u.updated ≠ 0 ∧ now - (days : Int) * secondsPerDay ≤ u.updated
     then some (DeactEntry.mk u.id u.name u.profile.real_name u.updated)
     else none).isSome = decide (isRecentDeact now days u) := by
  unfold isRecentDeact
  rcases Bool.eq_false_or_eq_true (truthy u.deleted) with hd | hd
  · by_cases hle : now - (days : Int) * secondsPerDay ≤ u.updated
    · have hne : u.updated ≠ 0 := by omega
      have hle2 : now ≤ u.updated + (days : Int) * secondsPerDay := by omega
      simp [hd, hne, hle2]
    · have hle2 : ¬ now ≤ u.updated + (days : Int) * secondsPerDay := by
        omega
      simp [hd, hle2]
  · simp [hd]

lemma recentDeactEntries_length (now : Int) (days : Nat)
    (users : List UserRecord) (h : 0 < now - (days : Int) * secondsPerDay) :
    (recentDeactEntries now days users).length =
      users.countP (fun u => decide (isRecentDeact now days u)) :=
  length_filterMap_eq_countP _ _
    (fun u => recentDeact_isSome now days u h) users

/-- C6: with a 7-day window, `check_recent_deactivations` counts deleted
users whose `updated` time is at or after `now` minus 7 days and emits
exactly one critical `user_deactivation` alert listing all matching users
(unbounded) iff that count reaches `deactivation_spike`; in particular,
with the default threshold 5, five recent deactivations yield one alert
and four yield none. -/
theorem C6_recent_deactivations (t : Thresholds) (now : Int)
    (users : List UserRecord) (h : 7 * secondsPerDay < now) :
    (check_recent_deactivations t now users 7 ≠ [] ↔
      t.deactivation_spike_count ≤
        users.countP (fun u => decide (isRecentDeact now 7 u))) ∧
    (∀ a ∈ check_recent_deactivations t now users 7,
      check_recent_deactivations t now users 7 = [a] ∧
      a.alert_type = "user_deactivation" ∧ a.severity = "critical" ∧
      ∃ es : List DeactEntry,
        a.details = Details.deactivation
          (users.countP (fun u => decide (isRecentDeact now 7 u))) 7 es ∧
        es.length =
          users.countP (fun u => decide (isRecentDeact now 7 u))) := by
  have h0 : 0 < now - ((7 : Nat) : Int) * secondsPerDay := by
    simp only [Nat.cast_ofNat]
    omega
  have hlen := recentDeactEntries_length now 7 users h0
  constructor
  · rw [check_recent_deactivations]
    split
    · rename_i hc
      rw [hlen] at hc
      simp [hc]
    · rename_i hc
      rw [hlen] at hc
      simp [hc]
  · intro a ha
    rw [check_recent_deactivations] at ha ⊢
    split at ha
    · rename_i hc
      rw [List.mem_singleton] at ha
      subst ha
      exact ⟨by simp [hc], rfl, rfl, recentDeactEntries now 7 users,
        by rw [hlen], hlen⟩
    · exact absurd ha (List.not_mem_nil a)

/-- Witness for C6: five users deactivated within the window fire the
check under the default thresholds. -/
theorem C6_witness :
    check_recent_deactivations defaultThresholds 1000000000
      [⟨"U1", none, ⟨none, none, none⟩, some true, none, none, none, none,
        none, 999999999⟩,
       ⟨"U2", none, ⟨none, none, none⟩, some true, none, none, none, none,
        none, 999999998⟩,
       ⟨"U3", none, ⟨none, none, none⟩, some true, none, none, none, none,
        none, 999999997⟩,
       ⟨"U4", none, ⟨none, none, none⟩, some true, none, none, none, none,
        none, 999999996⟩,
       ⟨"U5", none, ⟨none, none, none⟩, some true, none, none, none, none,
        none, 999999995⟩] 7 ≠ [] :=
  (C6_recent_deactivations defaultThresholds 1000000000 _
    (by norm_num [secondsPerDay])).1.mpr (by decide)

lemma getLast?_mem_list {α : Type} (l : List α) (a : α)
    (h : l.getLast? = some a) : a ∈ l := by
  have h2 : a ∈ l.getLast? := by
    rw [h]
    exact Option.mem_some_self a
  obtain ⟨hne, rfl⟩ := List.mem_getLast?_eq_getLast h2
  exact List.getLast_mem hne

lemma getBy_key {α : Type} (key : α → String) (l : List α) (i : String)
    (x : α) (hx : getBy key l i = some x) : key x = i := by
  have hm : x ∈ l.filter (fun y => key y == i) := getLast?_mem_list _ _ hx
  have := (List.mem_filter.mp hm).2
  simpa using this

lemma getBy_isSome {α : Type} (key : α → String) (l : List α) (i : String)
    (h : i ∈ keysBy key l) : (getBy key l i).isSome = true := by
  rw [keysBy, List.mem_dedup, List.mem_map] at h
  obtain ⟨x, hx, hkey⟩ := h
  have hm : x ∈ l.filter (fun y => key y == i) :=
    List.mem_filter.mpr ⟨hx, by simp [hkey]⟩
  rw [getBy, Option.isSome_iff_ne_none]
  intro hc
  rw [List.getLast?_eq_none_iff] at hc
  rw [hc] at hm
  exact List.not_mem_nil x hm

lemma filterMap_getBy_map_key {α : Type} (key : α → String) (src : List α)
    (l : List String) (h : ∀ i ∈ l, i ∈ keysBy key src) :
    (l.filterMap (getBy key src)).map key = l := by
  induction l with
  | nil => rfl
  | cons i rest ih =>
    have hs := getBy_isSome key src i (h i (by simp))
    obtain ⟨x, hx⟩ := Option.isSome_iff_exists.mp hs
    rw [List.filterMap_cons, hx]
    simp only [List.map_cons, getBy_key key src i x hx]
    rw [ih (fun j hj => h j (by simp [hj]))]

lemma length_filterMap_getBy {α : Type} (key : α → String) (src : List α)
    (l : List String) (h : ∀ i ∈ l, i ∈ keysBy key src) :
    (l.filterMap (getBy key src)).length = l.length := by
  have := congrArg List.length (filterMap_getBy_map_key key src l h)
  simpa using this

lemma nodup_diff_card (l1 l2 : List String) (h1 : l1.Nodup)
    (h2 : l2.Nodup) :
    (l2.length : ℤ) - (l1.length : ℤ) =
      ((l2.filter (fun i => !decide (i ∈ l1))).length : ℤ) -
        ((l1.filter (fun i => !decide (i ∈ l2))).length : ℤ) := by
  have k2 : (l2.filter (fun i => !decide (i ∈ l1))).toFinset =
      l2.toFinset \ l1.toFinset := by
    ext x
    simp [List.mem_filter]
  have k1 : (l1.filter (fun i => !decide (i ∈ l2))).toFinset =
      l1.toFinset \ l2.toFinset := by
    ext x
    simp [List.mem_filter]
  have c2 : (l2.toFinset \ l1.toFinset).card =
      (l2.filter (fun i => !decide (i ∈ l1))).length := by
    rw [← k2]
    exact List.toFinset_card_of_nodup (h2.filter _)
  have c1 : (l1.toFinset \ l2.toFinset).card =
      (l1.filter (fun i => !decide (i ∈ l2))).length := by
    rw [← k1]
    exact List.toFinset_card_of_nodup (h1.filter _)
  have add2 := Finset.card_sdiff_add_card_inter l2.toFinset l1.toFinset
  have add1 := Finset.card_sdiff_add_card_inter l1.toFinset l2.toFinset
  have hinter : (l2.toFinset ∩ l1.toFinset).card =
      (l1.toFinset ∩ l2.toFinset).card := by
    rw [Finset.inter_comm]
  have hl2 := List.toFinset_card_of_nodup h2
  have hl1 := List.toFinset_card_of_nodup h1
  omega

lemma keysBy_nodup {α : Type} (key : α → String) (l : List α) :
    (keysBy key l).Nodup :=
  List.nodup_dedup _

/-- C8: swapping the two compared backups swaps the added and removed id
sets, for users and for channels. -/
theorem C8_comparator_symmetry (us1 us2 : List UserRecord)
    (cs1 cs2 : List ChannelRecord) :
    (((compare_users us1 us2).added.map (fun u => u.id)).toFinset =
      ((compare_users us2 us1).removed.map (fun u => u.id)).toFinset) ∧
    (((compare_users us1 us2).removed.map (fun u => u.id)).toFinset =
      ((compare_users us2 us1).added.map (fun u => u.id)).toFinset) ∧
    (((compare_channels cs1 cs2).added.map (fun c => c.id)).toFinset =
      ((compare_channels cs2 cs1).removed.map (fun c => c.id)).toFinset) ∧
    (((compare_channels cs1 cs2).removed.map (fun c => c.id)).toFinset =
      ((compare_channels cs2 cs1).added.map (fun c => c.id)).toFinset) := by
  have hu : ∀ (a b : List UserRecord),
      (compare_users a b).added.map (fun u => u.id) =
        (dictKeys b).filter (fun i => !decide (i ∈ dictKeys a)) := by
    intro a b
    exact filterMap_getBy_map_key _ b _ (fun i hi => (List.mem_filter.mp hi).1)
  have hu2 : ∀ (a b : List UserRecord),
      (compare_users a b).removed.map (fun u => u.id) =
        (dictKeys a).filter (fun i => !decide (i ∈ dictKeys b)) := by
    intro a b
    exact filterMap_getBy_map_key _ a _ (fun i hi => (List.mem_filter.mp hi).1)
  have hc : ∀ (a b : List ChannelRecord),
      (compare_channels a b).added.map (fun c => c.id) =
        (keysBy (fun c => c.id) b).filter
          (fun i => !decide (i ∈ keysBy (fun c : ChannelRecord => c.id) a)) := by
    intro a b
    exact filterMap_getBy_map_key _ b _ (fun i hi => (List.mem_filter.mp hi).1)
  have hc2 : ∀ (a b : List ChannelRecord),
      (compare_channels a b).removed.map (fun c => c.id) =
        (keysBy (fun c => c.id) a).filter
          (fun i => !decide (i ∈ keysBy (fun c : ChannelRecord => c.id) b)) := by
    intro a b
    exact filterMap_getBy_map_key _ a _ (fun i hi => (List.mem_filter.mp hi).1)
  refine ⟨?_, ?_, ?_, ?_⟩
  · rw [hu us1 us2, hu2 us2 us1]
  · rw [hu2 us1 us2, hu us2 us1]
  · rw [hc cs1 cs2, hc2 cs2 cs1]
  · rw [hc2 cs1 cs2, hc cs2 cs1]

lemma compare_users_stats (us1 us2 : List UserRecord) :
    (compare_users us1 us2).stats.added_count =
      (compare_users us1 us2).added.length ∧
    (compare_users us1 us2).stats.removed_count =
      (compare_users us1 us2).removed.length ∧
    (compare_users us1 us2).stats.modified_count =
      (compare_users us1 us2).modified.length ∧
    (∀ e ∈ (compare_users us1 us2).modified, e.changes ≠ []) ∧
    ((compare_users us1 us2).stats.total_after : ℤ) -
        ((compare_users us1 us2).stats.total_before : ℤ) =
      ((compare_users us1 us2).stats.added_count : ℤ) -
        ((compare_users us1 us2).stats.removed_count : ℤ) := by
  refine ⟨?_, ?_, rfl, ?_, ?_⟩
  · exact (length_filterMap_getBy _ us2 _
      (fun i hi => (List.mem_filter.mp hi).1)).symm
  · exact (length_filterMap_getBy _ us1 _
      (fun i hi => (List.mem_filter.mp hi).1)).symm
  · intro e he
    obtain ⟨i, hi, hsome⟩ := List.mem_filterMap.mp he
    by_cases hcs : userChanges ((userDictGet us1 i).getD emptyUser)
        ((userDictGet us2 i).getD emptyUser) = []
    · simp only [hcs, if_pos] at hsome
      exact absurd hsome (by simp)
    · simp only [if_neg hcs] at hsome
      obtain rfl := Option.some_injective _ hsome
      exact hcs
  · exact nodup_diff_card (dictKeys us1) (dictKeys us2)
      (keysBy_nodup _ us1) (keysBy_nodup _ us2)

lemma compare_channels_stats (cs1 cs2 : List ChannelRecord) :
    (compare_channels cs1 cs2).stats.added_count =
      (compare_channels cs1 cs2).added.length ∧
    (compare_channels cs1 cs2).stats.removed_count =
      (compare_channels cs1 cs2).removed.length ∧
    (compare_channels cs1 cs2).stats.modified_count =
      (compare_channels cs1 cs2).modified.length ∧
    (∀ e ∈ (compare_channels cs1 cs2).modified, e.changes ≠ []) ∧
    ((compare_channels cs1 cs2).stats.total_after : ℤ) -
        ((compare_channels cs1 cs2).stats.total_before : ℤ) =
      ((compare_channels cs1 cs2).stats.added_count : ℤ) -
        ((compare_channels cs1 cs2).stats.removed_count : ℤ) := by
  refine ⟨?_, ?_, rfl, ?_, ?_⟩
  · exact (length_filterMap_getBy _ cs2 _
      (fun i hi => (List.mem_filter.mp hi).1)).symm
  · exact (length_filterMap_getBy _ cs1 _
      (fun i hi => (List.mem_filter.mp hi).1)).symm
  · intro e he
    obtain ⟨i, hi, hsome⟩ := List.mem_filterMap.mp he
    by_cases hcs : channelChanges ((chanDictGet cs1 i).getD emptyChannel)
        ((chanDictGet cs2 i).getD emptyChannel) = []
    · simp only [hcs, if_pos] at hsome
      exact absurd hsome (by simp)
    · simp only [if_neg hcs] at hsome
      obtain rfl := Option.some_injective _ hsome
      exact hcs
  · exact nodup_diff_card (keysBy (fun c => c.id) cs1)
      (keysBy (fun c => c.id) cs2) (keysBy_nodup _ cs1) (keysBy_nodup _ cs2)

/-- C10: in every comparison report the `added_count`, `removed_count` and
`modified_count` stats equal the lengths of the corresponding lists, every
modified entry has a non-empty changes mapping, and
`total_after - total_before = added_count - removed_count`. -/
theorem C10_report_invariants (us1 us2 : List UserRecord)
    (cs1 cs2 : List ChannelRecord) :
    ((compare_users us1 us2).stats.added_count =
        (compare_users us1 us2).added.length ∧
      (compare_users us1 us2).stats.removed_count =
        (compare_users us1 us2).removed.length ∧
      (compare_users us1 us2).stats.modified_count =
        (compare_users us1 us2).modified.length ∧
      (∀ e ∈ (compare_users us1 us2).modified, e.changes ≠ []) ∧
      ((compare_users us1 us2).stats.total_after : ℤ) -
          ((compare_users us1 us2).stats.total_before : ℤ) =
        ((compare_users us1 us2).stats.added_count : ℤ) -
          ((compare_users us1 us2).stats.removed_count : ℤ)) ∧
    ((compare_channels cs1 cs2).stats.added_count =
        (compare_channels cs1 cs2).added.length ∧
      (compare_channels cs1 cs2).stats.removed_count =
        (compare_channels cs1 cs2).removed.length ∧
      (compare_channels cs1 cs2).stats.modified_count =
        (compare_channels cs1 cs2).modified.length ∧
      (∀ e ∈ (compare_channels cs1 cs2).modified, e.changes ≠ []) ∧
      ((compare_channels cs1 cs2).stats.total_after : ℤ) -
          ((compare_channels cs1 cs2).stats.total_before : ℤ) =
        ((compare_channels cs1 cs2).stats.added_count : ℤ) -
          ((compare_channels cs1 cs2).stats.removed_count : ℤ)) :=
  ⟨compare_users_stats us1 us2, compare_channels_stats cs1 cs2⟩

lemma mem_archivedIds (cs : List ChannelRecord) (i : String) :
    i ∈ archivedIds cs ↔
      ∃ c ∈ cs, c.id = i ∧ truthy c.is_archived = true := by
  rw [archivedIds, keysBy, List.mem_dedup, List.mem_map]
  constructor
  · rintro ⟨c, hc, rfl⟩
    obtain ⟨hmem, harc⟩ := List.mem_filter.mp hc
    exact ⟨c, hmem, rfl, harc⟩
  · rintro ⟨c, hmem, rfl, harc⟩
    exact ⟨c, List.mem_filter.mpr ⟨hmem, harc⟩, rfl⟩

/-- Ten currently archived channels for the C7 counterexample. -/
def archivedTen : List ChannelRecord :=
  [⟨"C1", some "a", some true, none, none, none, 0⟩,
   ⟨"C2", some "b", some true, none, none, none, 0⟩,
   ⟨"C3", some "c", some true, none, none, none, 0⟩,
   ⟨"C4", some "d", some true, none, none, none, 0⟩,
   ⟨"C5", some "e", some true, none, none, none, 0⟩,
   ⟨"C6", some "f", some true, none, none, none, 0⟩,
   ⟨"C7", some "g", some true, none, none, none, 0⟩,
   ⟨"C8", some "h", some true, none, none, none, 0⟩,
   ⟨"C9", some "i", some true, none, none, none, 0⟩,
   ⟨"C10", some "j", some true, none, none, none, 0⟩]

/-- C7 counterexample: a supplied-but-empty previous channel list is
treated by the code like an absent one (`if previous_channels:`), so with
ten newly archived channels — meeting the default spike — no alert is
emitted although the claim, read over every supplied previous list,
predicts one. -/
theorem C7_counterexample :
    ¬ ((check_archived_channels defaultThresholds 0 archivedTen
          (some []) ≠ []) ↔
        defaultThresholds.channel_archive_spike ≤
          (newlyArchived archivedTen []).length) := by
  decide

/-- C7 (amended: the previous channel list must be non-empty for the
comparison to run): with no previous list the check is a no-op; with a
non-empty previous list, the newly-archived set is exactly the ids
archived now and not archived (or absent) before, and exactly one warning
`channel_management` alert with at most 20 channel samples is emitted iff
that set's size reaches `channel_archive_spike`. -/
theorem C7_archived_channels (t : Thresholds) (now : Int)
    (channels prev : List ChannelRecord) (h : prev ≠ []) :
    check_archived_channels t now channels none = [] ∧
    (∀ i, i ∈ newlyArchived channels prev ↔
      ((∃ c ∈ channels, c.id = i ∧ truthy c.is_archived = true) ∧
        ¬ ∃ c ∈ prev, c.id = i ∧ truthy c.is_archived = true)) ∧
    (check_archived_channels t now channels (some prev) ≠ [] ↔
      t.channel_archive_spike ≤ (newlyArchived channels prev).length) ∧
    (∀ a ∈ check_archived_channels t now channels (some prev),
      check_archived_channels t now channels (some prev) = [a] ∧
      a.alert_type = "channel_management" ∧ a.severity = "warning" ∧
      ∃ samp : List ChannelSample,
        a.details =
          Details.archived (newlyArchived channels prev).length samp ∧
        samp.length ≤ 20) := by
  refine ⟨rfl, ?_, ?_, ?_⟩
  · intro i
    rw [newlyArchived, List.mem_filter]
    simp only [Bool.not_eq_eq_eq_not, Bool.not_true, decide_eq_false_iff_not]
    rw [mem_archivedIds, mem_archivedIds]
  · rw [check_archived_channels]
    simp only [h, if_false]
    split
    · rename_i hc
      simp [hc]
    · rename_i hc
      simp [hc]
  · intro a ha
    rw [check_archived_channels] at ha ⊢
    simp only [h, if_false] at ha ⊢
    split at ha
    · rename_i hc
      rw [List.mem_singleton] at ha
      subst ha
      refine ⟨by simp [hc], rfl, rfl, _, rfl, List.length_take_le 20 _⟩
    · exact absurd ha (List.not_mem_nil a)

/-- Witness for C7's amended theorem: ten channels newly archived against
a non-empty previous snapshot fire the spike under default thresholds. -/
theorem C7_witness :
    check_archived_channels defaultThresholds 0 archivedTen
      (some [⟨"C0", some "z", none, none, none, none, 0⟩]) ≠ [] :=
  (C7_archived_channels defaultThresholds 0 archivedTen _
    (by simp)).2.2.1.mpr (by decide)

/-- Number of flipped flag values between snapshots, counting one per
`(user id, role)` pair whose raw optional value differs (the comparison
the code performs with Python `!=` on `dict.get` results). -/
def rawFlipCount (users prev : List UserRecord) : Nat :=
  (((dictKeys prev ++ dictKeys users).dedup).map (fun i =>
    let pu := (userDictGet prev i).getD emptyUser
    let cu := (userDictGet users i).getD emptyUser
    (if pu.is_admin ≠ cu.is_admin then 1 else 0) +
      (if pu.is_owner ≠ cu.is_owner then 1 else 0))).sum

/-- The claim's reading of the comparison: an absent flag is falsy and so
compares equal to an explicit `False`; one change per `(user id, role)`
pair whose truthiness differs. -/
def falsyFlipCount (users prev : List UserRecord) : Nat :=
  (((dictKeys prev ++ dictKeys users).dedup).map (fun i =>
    let pu := (userDictGet prev i).getD emptyUser
    let cu := (userDictGet users i).getD emptyUser
    (if truthy pu.is_admin ≠ truthy cu.is_admin then 1 else 0) +
      (if truthy pu.is_owner ≠ truthy cu.is_owner then 1 else 0))).sum

/-- The flag a change record's `role` field refers to. -/
def flagSel (role : String) (u : UserRecord) : Option Bool :=
  if role = "admin" then u.is_admin else u.is_owner

lemma adminChangesOf_length (users prev : List UserRecord) :
    (adminChangesOf users prev).length = rawFlipCount users prev := by
  rw [adminChangesOf, rawFlipCount, List.length_flatMap]
  congr 1
  apply List.map_congr_left
  intro i hi
  simp only [Function.comp_apply]
  by_cases hp : ((userDictGet prev i).getD emptyUser).is_admin ≠
      ((userDictGet users i).getD emptyUser).is_admin <;>
    by_cases hq : ((userDictGet prev i).getD emptyUser).is_owner ≠
        ((userDictGet users i).getD emptyUser).is_owner <;>
    simp [hp, hq]

lemma adminChangesOf_spec (users prev : List UserRecord) :
    ∀ c ∈ adminChangesOf users prev,
      (c.role = "admin" ∨ c.role = "owner") ∧
      flagSel c.role ((userDictGet prev c.user_id).getD emptyUser) ≠
        flagSel c.role ((userDictGet users c.user_id).getD emptyUser) ∧
      c.change = (if truthy (flagSel c.role
          ((userDictGet users c.user_id).getD emptyUser)) then "granted"
        else "revoked") := by
  intro c hc
  rw [adminChangesOf] at hc
  obtain ⟨i, hi, hmem⟩ := List.mem_flatMap.mp hc
  rcases List.mem_append.mp hmem with hm | hm
  · split at hm
    · rename_i hne
      rw [List.mem_singleton] at hm
      subst hm
      refine ⟨Or.inl rfl, ?_, ?_⟩
      · simpa [flagSel] using hne
      · simp [flagSel]
    · exact absurd hm (List.not_mem_nil c)
  · split at hm
    · rename_i hne
      rw [List.mem_singleton] at hm
      subst hm
      refine ⟨Or.inr rfl, ?_, ?_⟩
      · simpa [flagSel] using hne
      · simp [flagSel]
    · exact absurd hm (List.not_mem_nil c)

/-- Previous snapshot for the C5 counterexample: two stable owners and
three users whose `is_admin` key is absent. -/
def prevC5 : List UserRecord :=
  [⟨"U1", some "o1", ⟨none, none, none⟩, none, none, some false, some true,
    none, none, 0⟩,
   ⟨"U2", some "o2", ⟨none, none, none⟩, none, none, some false, some true,
    none, none, 0⟩,
   ⟨"A1", some "a1", ⟨none, none, none⟩, none, none, none, some false,
    none, none, 0⟩,
   ⟨"A2", some "a2", ⟨none, none, none⟩, none, none, none, some false,
    none, none, 0⟩,
   ⟨"A3", some "a3", ⟨none, none, none⟩, none, none, none, some false,
    none, none, 0⟩]

/-- Current snapshot for the C5 counterexample: identical to `prevC5`
except that the three users now carry an explicit `is_admin: false`. -/
def usersC5 : List UserRecord :=
  [⟨"U1", some "o1", ⟨none, none, none⟩, none, none, some false, some true,
    none, none, 0⟩,
   ⟨"U2", some "o2", ⟨none, none, none⟩, none, none, some false, some true,
    none, none, 0⟩,
   ⟨"A1", some "a1", ⟨none, none, none⟩, none, none, some false, some false,
    none, none, 0⟩,
   ⟨"A2", some "a2", ⟨none, none, none⟩, none, none, some false, some false,
    none, none, 0⟩,
   ⟨"A3", some "a3", ⟨none, none, none⟩, none, none, some false, some false,
    none, none, 0⟩]

/-- C5 counterexample: the code compares the flags with raw `!=` on
`dict.get` results, so a missing flag differs from an explicit `False`.
Three users whose `is_admin` merely becomes explicit (`absent` to
`False`) trigger the spike alert although the claim's falsy-equal
comparison counts zero changes. -/
theorem C5_counterexample :
    ¬ ((∃ a ∈ check_admin_changes defaultThresholds 0 usersC5 (some prevC5),
          a.title = "Multiple Permission Changes") ↔
        defaultThresholds.admin_change_spike ≤
          falsyFlipCount usersC5 prevC5) := by
  decide

/-- C5 (amended: the flags are compared as raw optional values, an absent
flag being distinct from an explicit `false`, and the supplied previous
list must be non-empty): each differing `(user id, role)` pair yields one
change record whose direction is `granted` iff the new value is truthy,
and exactly one warning alert listing all changes (unbounded) is emitted
iff the change count reaches `admin_change_spike`. -/
theorem C5_admin_change_detection (t : Thresholds) (now : Int)
    (users prev : List UserRecord) (h : prev ≠ []) :
    ((∃ a ∈ check_admin_changes t now users (some prev),
        a.title = "Multiple Permission Changes") ↔
      t.admin_change_spike ≤ rawFlipCount users prev) ∧
    ((check_admin_changes t now users (some prev)).filter
      (fun a => a.title == "Multiple Permission Changes")).length ≤ 1 ∧
    (∀ a ∈ check_admin_changes t now users (some prev),
      a.title = "Multiple Permission Changes" →
        a.severity = "warning" ∧ a.alert_type = "permissions" ∧
        a.details = Details.adminChanges (rawFlipCount users prev)
          (adminChangesOf users prev)) ∧
    (adminChangesOf users prev).length = rawFlipCount users prev ∧
    (∀ c ∈ adminChangesOf users prev,
      (c.role = "admin" ∨ c.role = "owner") ∧
      flagSel c.role ((userDictGet prev c.user_id).getD emptyUser) ≠
        flagSel c.role ((userDictGet users c.user_id).getD emptyUser) ∧
      c.change = (if truthy (flagSel c.role
          ((userDictGet users c.user_id).getD emptyUser)) then "granted"
        else "revoked")) := by
  have hnf : check_admin_changes t now users (some prev) =
      (if owner_count users = 0 then
        [⟨"permissions", "critical", "No Workspace Owners",
          "No active workspace owners detected - this is a critical security issue",
          Details.ownerCount 0, now⟩]
      else if owner_count users = 1 then
        [⟨"permissions", "warning", "Single Workspace Owner",
          "Only one workspace owner - consider adding backup owners",
          Details.ownerCount 1, now⟩]
      else []) ++
      (if t.admin_change_spike ≤ (adminChangesOf users prev).length then
        [⟨"permissions", "warning", "Multiple Permission Changes",
          toString (adminChangesOf users prev).length ++
            " admin/owner permission changes detected",
          Details.adminChanges (adminChangesOf users prev).length
            (adminChangesOf users prev), now⟩]
      else []) := by
    rw [check_admin_changes]
    simp only [h, if_false]
  have hlen := adminChangesOf_length users prev
  refine ⟨?_, ?_, ?_, hlen, adminChangesOf_spec users prev⟩
  · rw [hnf, ← hlen]
    by_cases hs : t.admin_change_spike ≤ (adminChangesOf users prev).length
    · simp only [hs, iff_true, if_true]
      refine ⟨_, List.mem_append_right _ (List.mem_singleton_self _), rfl⟩
    · simp only [hs, iff_false, if_false, List.append_nil]
      rintro ⟨a, ha, htitle⟩
      split at ha
      · rw [List.mem_singleton] at ha
        subst ha
        simp at htitle
      · split at ha
        · rw [List.mem_singleton] at ha
          subst ha
          simp at htitle
        · exact absurd ha (List.not_mem_nil a)
  · rw [hnf, List.filter_append]
    have howner : ((if owner_count users = 0 then
        [(⟨"permissions", "critical", "No Workspace Owners",
          "No active workspace owners detected - this is a critical security issue",
          Details.ownerCount 0, now⟩ : Alert)]
      else if owner_count users = 1 then
        [⟨"permissions", "warning", "Single Workspace Owner",
          "Only one workspace owner - consider adding backup owners",
          Details.ownerCount 1, now⟩]
      else []).filter
        (fun a => a.title == "Multiple Permission Changes")) = [] := by
      split <;> try split
      all_goals simp [List.filter]
    rw [howner]
    split <;> simp
  · intro a ha htitle
    rw [hnf] at ha
    rcases List.mem_append.mp ha with hm | hm
    · split at hm
      · rw [List.mem_singleton] at hm
        subst hm
        simp at htitle
      · split at hm
        · rw [List.mem_singleton] at hm
          subst hm
          simp at htitle
        · exact absurd hm (List.not_mem_nil a)
    · split at hm
      · rw [List.mem_singleton] at hm
        subst hm
        exact ⟨rfl, rfl, by rw [hlen]⟩
      · exact absurd hm (List.not_mem_nil a)

/-- Witness for C5's amended theorem: three real grants fire the spike. -/
theorem C5_witness :
    ∃ a ∈ check_admin_changes defaultThresholds 0 usersC5
        (some [⟨"U1", some "o1", ⟨none, none, none⟩, none, none, some false,
          some true, none, none, 0⟩]),
      a.title = "Multiple Permission Changes" :=
  (C5_admin_change_detection defaultThresholds 0 usersC5 _
    (by simp)).1.mpr (by decide)

end Slack
